import Mathlib

/-!
# Shallow embedding of the Supreme Jarvis GUI real-time state layer

This file embeds, in Lean 4, the client-side state-synchronization code of the
repository: the Redux chat slice (`src/gui/frontend/src/store/chatSlice.ts`),
the system slice (`systemSlice.ts`), the socket slice thunks
(`socketSlice.ts`, inlined in `src/gui/start_frontend.sh`), and the event
handlers of the React components `ChatInterface.tsx`, `StatusPanel`
(`Header.tsx`), `MetricsPanel`, and `ControlCentre.tsx`.

Conventions of the embedding:
* JavaScript objects with optional fields become structures with `Option`
  fields; a missing or `null`/`undefined` field is `none`.
* The JavaScript `x || d` fallback is embedded by the `jsOr*` helpers below:
  for numbers `0` is falsy, for strings `""` is falsy, for booleans `false`
  is falsy, while every array (including `[]`) is truthy.
* `Date.now()` / `new Date()` are passed in as an explicit `now : Nat`
  parameter.
* Redux `dispatch` of a reducer action is function application of the
  corresponding pure reducer; a handler is the composition of the actions it
  dispatches, in dispatch order.
* Outbound `socket.emit(...)` calls are collected in a returned
  `List OutEvent`; plain HTTP fetches of the metrics panel are collected in a
  `List FetchReq`.
-/

set_option autoImplicit false

namespace Jarvis

/-- JavaScript `x || d` for an optional number: `undefined` and `0` are falsy. -/
def jsOrNum (x : Option Rat) (d : Rat) : Rat :=
  match x with
  | none => d
  | some v => if v = 0 then d else v

/-- JavaScript `x || d` for an optional natural number field: `undefined` and `0` are falsy. -/
def jsOrNatNum (x : Option Nat) (d : Nat) : Nat :=
  match x with
  | none => d
  | some v => if v = 0 then d else v

/-- JavaScript `x || d` for an optional string: `undefined` and `""` are falsy. -/
def jsOrStr (x : Option String) (d : String) : String :=
  match x with
  | none => d
  | some s => if s = "" then d else s

/-- JavaScript `x || d` for an optional boolean: `undefined` and `false` are falsy. -/
def jsOrBool (x : Option Bool) (d : Bool) : Bool :=
  match x with
  | none => d
  | some b => b || d

/-- JavaScript `String.prototype.trim()`: strips leading and trailing
whitespace (embedded over `Char.isWhitespace`), by structural recursion so
that it evaluates on concrete inputs. -/
def jsTrim (s : String) : String :=
  ⟨((s.data.dropWhile Char.isWhitespace).reverse.dropWhile
      Char.isWhitespace).reverse⟩

/-! ## Chat slice (`chatSlice.ts`) -/

/-- The `type` field of a `Message` (`'user' | 'assistant' | 'system'`). -/
inductive Role where
  | user
  | assistant
  | system
deriving DecidableEq, Repr

/-- `Message` from `chatSlice.ts`: `confidence`, `enginesUsed` and
`processingTime` are optional fields. -/
structure Message where
  id : String
  type : Role
  content : String
  timestamp : Nat
  confidence : Option Rat := none
  enginesUsed : Option (List String) := none
  processingTime : Option Rat := none
deriving DecidableEq, Repr

/-- `ChatState` from `chatSlice.ts`. -/
structure ChatState where
  messages : List Message
  isProcessing : Bool
  activeEngines : List String
  currentInput : String
deriving DecidableEq, Repr

/-- The seed welcome message of `initialState` in `chatSlice.ts`
(its `new Date()` timestamp is embedded as `0`). -/
def welcomeMessage : Message :=
  { id := "1"
    type := Role.system
    content := "Welcome to Supreme Jarvis! I\x27m ready to assist you with my god-like capabilities. How can I help you today?"
    timestamp := 0 }

/-- `initialState` of the chat slice. -/
def chatInitialState : ChatState :=
  { messages := [welcomeMessage]
    isProcessing := false
    activeEngines := []
    currentInput := "" }

/-- Reducer `addMessage`: pushes the payload onto `messages`. -/
def addMessage (s : ChatState) (m : Message) : ChatState :=
  { s with messages := s.messages ++ [m] }

/-- Reducer `setProcessing`. -/
def setProcessing (s : ChatState) (b : Bool) : ChatState :=
  { s with isProcessing := b }

/-- Reducer `setActiveEngines`. -/
def setActiveEngines (s : ChatState) (engines : List String) : ChatState :=
  { s with activeEngines := engines }

/-- Reducer `setCurrentInput`. -/
def setCurrentInput (s : ChatState) (t : String) : ChatState :=
  { s with currentInput := t }

/-- Reducer `clearMessages`: keeps only the welcome message
(`state.messages = [initialState.messages[0]]`). -/
def clearMessages (s : ChatState) : ChatState :=
  { s with messages := [welcomeMessage] }

/-- The actions of the chat slice, as an inductive alphabet. -/
inductive ChatAction where
  | addMessage (m : Message)
  | setProcessing (b : Bool)
  | setActiveEngines (engines : List String)
  | setCurrentInput (t : String)
  | clearMessages
deriving DecidableEq, Repr

/-- The chat slice reducer: dispatching one action to the chat store. -/
def chatReducer (s : ChatState) : ChatAction → ChatState
  | ChatAction.addMessage m => addMessage s m
  | ChatAction.setProcessing b => setProcessing s b
  | ChatAction.setActiveEngines engines => setActiveEngines s engines
  | ChatAction.setCurrentInput t => setCurrentInput s t
  | ChatAction.clearMessages => clearMessages s

/-! ## Transport-facing types used by the components -/

/-- The view a component has of the socket.io handle: components test
`socket.connected` before sending chat messages. -/
structure Socket where
  connected : Bool
deriving DecidableEq, Repr

/-- `socket && socket.connected` from `ChatInterface.tsx`. -/
def socketConnected : Option Socket → Bool
  | none => false
  | some s => s.connected

/-- `UserProfile` from `settingsSlice.ts`. -/
structure UserProfile where
  userId : String
  name : String
  role : String
  experienceLevel : String
deriving DecidableEq, Repr

/-- The `preferences` record of `settingsSlice.ts`. -/
structure Preferences where
  complexity : String
  style : String
  quantumPowers : Bool
  codingFocus : String
deriving DecidableEq, Repr

/-- The `safeUserProfile` fallback of `ChatInterface.tsx` (lines 38-43). -/
def safeUserProfileDefault : UserProfile :=
  { userId := "default_user", name := "User", role := "user",
    experienceLevel := "intermediate" }

/-- The `safePreferences` fallback of `ChatInterface.tsx` (lines 45-50). -/
def safePreferencesDefault : Preferences :=
  { complexity := "detailed", style := "technical", quantumPowers := true,
    codingFocus := "full_stack" }

/-- A control-settings value is a boolean or a numeric slider value. -/
inductive SettingVal where
  | b (v : Bool)
  | n (v : Rat)
deriving DecidableEq, Repr

/-- The `controlSettings` map of `ControlCentre.tsx`, as a key-value list. -/
abbrev ControlSettings := List (String × SettingVal)

/-- The outbound socket.io events the embedded code can emit. -/
inductive OutEvent where
  | chat_message (message : String) (profile : UserProfile) (prefs : Preferences)
  | request_system_status
  | get_control_settings
  | update_control_settings (settings : ControlSettings)
  | get_ai_models
deriving DecidableEq, Repr

/-- The plain HTTP requests issued by `MetricsPanel`. -/
inductive FetchReq where
  | system_metrics
  | system_performance
deriving DecidableEq, Repr

/-! ## `ChatInterface.tsx` handlers -/

/-- The not-connected notice appended by `handleSendMessage`. -/
def notConnectedContent : String :=
  "Not connected to Supreme Jarvis backend. Please check the connection."

/-- `handleSendMessage` from `ChatInterface.tsx` (lines 119-170): guard on
blank input or in-flight request; optimistic user echo; emit when connected,
synthetic system message otherwise. Returns the new chat state and the list
of emitted events. -/
def handleSendMessage (s : ChatState) (socket : Option Socket)
    (profile : UserProfile) (prefs : Preferences) (now : Nat) :
    ChatState × List OutEvent :=
  if jsTrim s.currentInput == "" || s.isProcessing then (s, [])
  else
    let userMessage : Message :=
      { id := toString now, type := Role.user, content := s.currentInput,
        timestamp := now }
    let s1 := setProcessing (addMessage s userMessage) true
    let messageToSend := s.currentInput
    let s2 := setCurrentInput s1 ""
    if socketConnected socket then
      (s2, [OutEvent.chat_message messageToSend profile prefs])
    else
      let errorMessage : Message :=
        { id := toString now, type := Role.system,
          content := notConnectedContent, timestamp := now }
      (addMessage (setProcessing s2 false) errorMessage, [])

/-- The payload of an inbound `chat_response` event
(`{response?, confidence?, engines_used?, processing_time?}`). -/
structure ChatResponsePayload where
  response : Option String := none
  confidence : Option Rat := none
  engines_used : Option (List String) := none
  processing_time : Option Rat := none
deriving DecidableEq, Repr

/-- `handleChatResponse` from `ChatInterface.tsx` (lines 64-84): builds an
assistant message with `||`-fallbacks, appends it, resolves `isProcessing`,
clears `activeEngines`. -/
def handleChatResponse (s : ChatState) (p : ChatResponsePayload) (now : Nat) :
    ChatState :=
  let message : Message :=
    { id := toString now
      type := Role.assistant
      content := jsOrStr p.response "No response received"
      timestamp := now
      confidence := some (jsOrNum p.confidence 0)
      enginesUsed := some (p.engines_used.getD [])
      processingTime := some (jsOrNum p.processing_time 0) }
  setActiveEngines (setProcessing (addMessage s message) false) []

/-- The payload of an inbound `processing_status` event. -/
structure ProcessingStatusPayload where
  engines_active : Option (List String) := none
deriving DecidableEq, Repr

/-- `handleProcessingStatus` from `ChatInterface.tsx` (lines 86-92). -/
def handleProcessingStatus (s : ChatState) (p : ProcessingStatusPayload) :
    ChatState :=
  setActiveEngines s (p.engines_active.getD [])

/-- The payload of an inbound `error` event. -/
structure ErrorPayload where
  message : Option String := none
deriving DecidableEq, Repr

/-- `handleError` from `ChatInterface.tsx` (lines 94-106): unconditionally
resolves `isProcessing`, clears `activeEngines`, appends a system message. -/
def handleError (s : ChatState) (p : ErrorPayload) (now : Nat) : ChatState :=
  let s1 := setActiveEngines (setProcessing s false) []
  let errorMessage : Message :=
    { id := toString now, type := Role.system,
      content := "Error: " ++ jsOrStr p.message "Unknown error occurred",
      timestamp := now }
  addMessage s1 errorMessage

/-! ## System slice (`systemSlice.ts`) and `StatusPanel` handlers -/

/-- The `status` field of an `Engine` (`'active' | 'idle' | 'error' | 'demo'`). -/
inductive EngineStatus where
  | active
  | idle
  | error
  | demo
deriving DecidableEq, Repr

/-- `Engine` from `systemSlice.ts`. -/
structure Engine where
  name : String
  status : EngineStatus
  activity : Rat
  lastUsed : Option String := none
deriving DecidableEq, Repr

/-- `SystemState` from `systemSlice.ts`. -/
structure SystemState where
  engines : List Engine
  overallHealth : String
  godlikeMode : Bool
  activeSessions : Nat
  uptime : String
deriving DecidableEq, Repr

/-- `initialState` of the system slice. -/
def systemInitialState : SystemState :=
  { engines := [], overallHealth := "unknown", godlikeMode := false,
    activeSessions := 0, uptime := "0m" }

/-- Reducer `setEngines`: replaces the whole `engines` list. -/
def setEngines (s : SystemState) (engines : List Engine) : SystemState :=
  { s with engines := engines }

/-- The payload of the `setSystemStatus` action. -/
structure SystemStatusAction where
  overallHealth : String
  godlikeMode : Bool
  activeSessions : Nat
  uptime : String
deriving DecidableEq, Repr

/-- Reducer `setSystemStatus`: overwrites the four aggregate fields. -/
def setSystemStatus (s : SystemState) (a : SystemStatusAction) : SystemState :=
  { s with overallHealth := a.overallHealth, godlikeMode := a.godlikeMode,
           activeSessions := a.activeSessions, uptime := a.uptime }

/-- The payload of an inbound `system_status` event; every field optional.
An event whose payload is `null`/`undefined` is embedded as `none` at the
`Option SystemStatusPayload` level in `handleSystemStatus`. -/
structure SystemStatusPayload where
  engines : Option (List Engine) := none
  overall_health : Option String := none
  godlike_mode : Option Bool := none
  active_sessions : Option Nat := none
  uptime : Option String := none
deriving DecidableEq, Repr

/-- `handleSystemStatus` from `StatusPanel` (`Header.tsx`, lines 161-177):
`setEngines` only when the payload carries an engines list (any array,
including the empty one, is truthy in JavaScript), then `setSystemStatus`
with `||`-fallbacks — note `status.active_sessions || 1`. -/
def handleSystemStatus (s : SystemState) (status : Option SystemStatusPayload) :
    SystemState :=
  match status with
  | none => s
  | some st =>
    let s1 := match st.engines with
      | some engines => setEngines s engines
      | none => s
    setSystemStatus s1
      { overallHealth := jsOrStr st.overall_health "unknown"
        godlikeMode := jsOrBool st.godlike_mode false
        activeSessions := jsOrNatNum st.active_sessions 1
        uptime := jsOrStr st.uptime "0m" }

/-- The payload of an inbound `engine_activity` event. -/
structure EngineActivityPayload where
  engines : Option (List Engine) := none
deriving DecidableEq, Repr

/-- `handleEngineActivity` from `StatusPanel` (`Header.tsx`, lines 179-187):
dispatches only `setEngines`, and only when the payload carries an engines
list. -/
def handleEngineActivity (s : SystemState) (activity : Option EngineActivityPayload) :
    SystemState :=
  match activity with
  | none => s
  | some a =>
    match a.engines with
    | some engines => setEngines s engines
    | none => s

/-! ## Status Poller ticks

In `StatusPanel` the effect body runs only when the socket object exists
(`if (!socket) return`); when it does, `requestStatus` is called once and
then every 5 seconds, and its body emits `request_system_status`
unconditionally — there is no `socket.connected` test. Likewise
`MetricsPanel` issues its two fetches on every 10-second tick whenever the
socket object exists. -/

/-- One tick of the 5-second status poll of `StatusPanel`. -/
def requestStatusTick (socket : Option Socket) : List OutEvent :=
  match socket with
  | none => []
  | some _ => [OutEvent.request_system_status]

/-- One tick of the 10-second metrics poll of `MetricsPanel`. -/
def requestMetricsTick (socket : Option Socket) : List FetchReq :=
  match socket with
  | none => []
  | some _ => [FetchReq.system_metrics, FetchReq.system_performance]

/-! ## Socket slice (`socketSlice.ts`, inlined in `start_frontend.sh`) -/

/-- The three baseline lifecycle handlers registered by `connectSocket`. -/
def baselineHandlers : List String := ["connect", "disconnect", "connect_error"]

/-- One socket.io client instance created by `io(...)`: the event names with
registered handlers, and whether `socket.disconnect()` has been called on it. -/
structure SocketHandle where
  handlers : List String
  closed : Bool
deriving DecidableEq, Repr

/-- The socket slice state, extended with the session-wide list of socket
instances created so far (in creation order); `current` is the index of the
handle held in `state.socket`. -/
structure SocketSliceState where
  sockets : List SocketHandle
  current : Option Nat
  isConnected : Bool
  error : Option String
deriving DecidableEq, Repr

/-- `initialState` of the socket slice: no socket yet. -/
def socketInitialState : SocketSliceState :=
  { sockets := [], current := none, isConnected := false, error := none }

/-- The socket instance `connectSocket` creates: `io(...)` followed by three
`socket.on(...)` registrations. -/
def newSocketHandle : SocketHandle :=
  { handlers := baselineHandlers, closed := false }

/-- The `connectSocket` thunk: unconditionally creates a fresh socket,
registers the three baseline handlers on it, and dispatches `setSocket`
(replacing the stored reference). There is no already-connected guard. -/
def connectSocket (st : SocketSliceState) : SocketSliceState :=
  { st with sockets := st.sockets ++ [newSocketHandle],
            current := some st.sockets.length }

/-- The `connect` lifecycle callback: `setConnected(true)`, `setError(null)`. -/
def onConnect (st : SocketSliceState) : SocketSliceState :=
  { st with isConnected := true, error := none }

/-- The `disconnect` lifecycle callback: `setConnected(false)`. -/
def onDisconnect (st : SocketSliceState) : SocketSliceState :=
  { st with isConnected := false }

/-- The `connect_error` lifecycle callback: `setError(msg)`, `setConnected(false)`. -/
def onConnectError (st : SocketSliceState) (msg : String) : SocketSliceState :=
  { st with isConnected := false, error := some msg }

/-- Marks the socket at index `i` closed. -/
def closeAt (sockets : List SocketHandle) (i : Nat) : List SocketHandle :=
  sockets.mapIdx fun j s => if j = i then { s with closed := true } else s

/-- The `disconnectSocket` thunk: closes the stored socket, if any, and
dispatches `clearSocket`. -/
def disconnectSocket (st : SocketSliceState) : SocketSliceState :=
  match st.current with
  | none => st
  | some i =>
    { sockets := closeAt st.sockets i, current := none, isConnected := false,
      error := none }

/-- The number of socket instances created this session and never closed. -/
def liveSockets (st : SocketSliceState) : Nat :=
  (st.sockets.filter fun s => !s.closed).length

/-! ## `ControlCentre.tsx` -/

/-- `saveSettings` from `ControlCentre.tsx` (lines 149-157): emits
`update_control_settings` with the entire local map when a socket object
exists, otherwise only logs; the local map is never mutated. Returns the
emitted events and the (unchanged) local settings map. -/
def saveSettings (socket : Option Socket) (controlSettings : ControlSettings) :
    List OutEvent × ControlSettings :=
  match socket with
  | some _ => ([OutEvent.update_control_settings controlSettings], controlSettings)
  | none => ([], controlSettings)

/-! ## Claim theorems -/

/-- Claim C1 (confirmed): a `submit` issued while `isProcessing` is true, or
whose text is empty or whitespace-only, is a no-op — the chat state is
unchanged and no event is sent — so the single-flight guard holds and the
user's message is never duplicated. -/
theorem submit_blank_or_processing_noop (s : ChatState) (socket : Option Socket)
    (profile : UserProfile) (prefs : Preferences) (now : Nat)
    (h : s.isProcessing = true ∨ jsTrim s.currentInput = "") :
    handleSendMessage s socket profile prefs now = (s, []) := by
  have hc : (jsTrim s.currentInput == "" || s.isProcessing) = true := by
    rcases h with h | h <;> simp [h]
  simp [handleSendMessage, hc]

/-- Witness for C1: a concrete submit while a request is in flight leaves the
store untouched and emits nothing. -/
theorem submit_blank_or_processing_noop_witness :
    handleSendMessage
        { chatInitialState with isProcessing := true, currentInput := "hello" }
        (some { connected := true }) safeUserProfileDefault safePreferencesDefault 7
      = ({ chatInitialState with isProcessing := true, currentInput := "hello" }, []) :=
  submit_blank_or_processing_noop _ _ _ _ _ (Or.inl rfl)

/-- Claim C6 (confirmed): every chat-slice action other than `clearMessages`
leaves the message log at least as long as before, and `clearMessages` resets
the log to exactly the seed welcome message while leaving `isProcessing`
unchanged. -/
theorem chat_log_append_only (s : ChatState) (a : ChatAction) :
    (a ≠ ChatAction.clearMessages →
      s.messages.length ≤ (chatReducer s a).messages.length)
    ∧ (a = ChatAction.clearMessages →
      (chatReducer s a).messages = [welcomeMessage]
      ∧ (chatReducer s a).isProcessing = s.isProcessing) := by
  cases a <;>
    simp [chatReducer, addMessage, setProcessing, setActiveEngines,
      setCurrentInput, clearMessages]

/-- Witness for C6 at concrete actions: a non-clearing action keeps the log
length, and clearing resets to the seed. -/
theorem chat_log_append_only_witness :
    chatInitialState.messages.length
      ≤ (chatReducer chatInitialState (ChatAction.setProcessing true)).messages.length
    ∧ (chatReducer chatInitialState ChatAction.clearMessages).messages = [welcomeMessage] :=
  ⟨(chat_log_append_only chatInitialState (ChatAction.setProcessing true)).1 (by decide),
   ((chat_log_append_only chatInitialState ChatAction.clearMessages).2 rfl).1⟩

/-- Claim C7 (confirmed): `saveSettings` with no socket object emits nothing
and returns the local settings map unchanged (the function is total, so no
exception is possible in the embedding). -/
theorem save_settings_no_socket_noop (controlSettings : ControlSettings) :
    saveSettings none controlSettings = ([], controlSettings) := rfl

/-- Counterexample to claim C2: starting from the initial socket state,
calling `connectSocket`, letting the `connect` callback fire, and calling
`connectSocket` again is not a no-op and leaves two live socket instances,
not one. -/
theorem connect_twice_counterexample :
    liveSockets (connectSocket (onConnect (connectSocket socketInitialState))) = 2
    ∧ connectSocket (onConnect (connectSocket socketInitialState))
        ≠ onConnect (connectSocket socketInitialState) := by
  decide

/-- Amended claim C2: `connectSocket` carries no already-connected guard — it
always creates one fresh socket carrying exactly one set of the three
baseline lifecycle handlers, stores it as the current socket, leaves the
connection flag and error untouched, and increments the number of live
connections by one; hence two calls without an intervening disconnect yield
two live connections. -/
theorem connect_always_creates (st : SocketSliceState) :
    (connectSocket st).sockets = st.sockets ++ [newSocketHandle]
    ∧ (connectSocket st).current = some st.sockets.length
    ∧ newSocketHandle.handlers = baselineHandlers
    ∧ newSocketHandle.closed = false
    ∧ liveSockets (connectSocket st) = liveSockets st + 1
    ∧ (connectSocket st).isConnected = st.isConnected
    ∧ (connectSocket st).error = st.error := by
  refine ⟨rfl, rfl, rfl, rfl, ?_, rfl, rfl⟩
  simp [liveSockets, connectSocket, newSocketHandle]

/-- Counterexample to claim C5: a poller tick taken while the socket object
exists but is not connected still emits the status request and still issues
the metrics fetches — there is no connectedness check in the tick. -/
theorem poll_tick_counterexample :
    requestStatusTick (some { connected := false }) = [OutEvent.request_system_status]
    ∧ requestStatusTick (some { connected := false }) ≠ []
    ∧ requestMetricsTick (some { connected := false })
        = [FetchReq.system_metrics, FetchReq.system_performance]
    ∧ requestMetricsTick (some { connected := false }) ≠ [] := by
  refine ⟨rfl, by decide, rfl, by decide⟩

/-- Amended claim C5: a poller tick is a no-op exactly when no socket object
exists; whenever a socket object exists — connected or not — the 5-second
tick emits `request_system_status` and the 10-second tick issues both
metrics fetches. -/
theorem poll_tick_guard (sock : Socket) :
    requestStatusTick none = []
    ∧ requestMetricsTick none = []
    ∧ requestStatusTick (some sock) = [OutEvent.request_system_status]
    ∧ requestMetricsTick (some sock)
        = [FetchReq.system_metrics, FetchReq.system_performance] :=
  ⟨rfl, rfl, rfl, rfl⟩

/-- Counterexample to claim C3: applying `handleSystemStatus` to a payload
with every field missing yields `activeSessions = 1`, not the claimed safe
default `0` (the handler reads `status.active_sessions || 1`). -/
theorem system_status_counterexample :
    (handleSystemStatus systemInitialState (some {})).activeSessions = 1
    ∧ (handleSystemStatus systemInitialState (some {})).activeSessions ≠ 0 := by
  refine ⟨rfl, by decide⟩

/-- Amended claim C3: the `system_status` handler overwrites every aggregate
field, falling back for a missing field to `unknown` health, `false`
godlikeMode, `1` active session, and `0m` uptime; the engines set is replaced
with the payload's list exactly when the payload carries one, and is left
unchanged when the engines field is missing. -/
theorem system_status_defaults (s : SystemState) (p : SystemStatusPayload) :
    (p.overall_health = none →
      (handleSystemStatus s (some p)).overallHealth = "unknown")
    ∧ (p.godlike_mode = none → (handleSystemStatus s (some p)).godlikeMode = false)
    ∧ (p.active_sessions = none → (handleSystemStatus s (some p)).activeSessions = 1)
    ∧ (p.uptime = none → (handleSystemStatus s (some p)).uptime = "0m")
    ∧ (p.engines = none → (handleSystemStatus s (some p)).engines = s.engines)
    ∧ (∀ l, p.engines = some l → (handleSystemStatus s (some p)).engines = l) := by
  refine ⟨?_, ?_, ?_, ?_, ?_, ?_⟩
  · intro h
    simp [handleSystemStatus, setSystemStatus, jsOrStr, h]
  · intro h
    simp [handleSystemStatus, setSystemStatus, jsOrBool, h]
  · intro h
    simp [handleSystemStatus, setSystemStatus, jsOrNatNum, h]
  · intro h
    simp [handleSystemStatus, setSystemStatus, jsOrStr, h]
  · intro h
    simp [handleSystemStatus, setSystemStatus, setEngines, h]
  · intro l h
    simp [handleSystemStatus, setSystemStatus, setEngines, h]

/-- Witness for the amended C3 at concrete payloads: an all-missing payload
takes every fallback, and a payload carrying an engines list replaces the
set. -/
theorem system_status_defaults_witness :
    (handleSystemStatus systemInitialState
        (some ⟨none, none, none, none, none⟩)).overallHealth = "unknown"
    ∧ (handleSystemStatus systemInitialState
        (some ⟨none, none, none, none, none⟩)).godlikeMode = false
    ∧ (handleSystemStatus systemInitialState
        (some ⟨none, none, none, none, none⟩)).uptime = "0m"
    ∧ (handleSystemStatus systemInitialState
        (some ⟨some [], none, none, none, none⟩)).engines = [] :=
  ⟨(system_status_defaults systemInitialState ⟨none, none, none, none, none⟩).1 rfl,
   (system_status_defaults systemInitialState ⟨none, none, none, none, none⟩).2.1 rfl,
   (system_status_defaults systemInitialState ⟨none, none, none, none, none⟩).2.2.2.1 rfl,
   (system_status_defaults systemInitialState
      ⟨some [], none, none, none, none⟩).2.2.2.2.2 [] rfl⟩

/-- Counterexample to claim C4: on a `chat_response` payload with every field
missing, the appended assistant message carries `confidence = some 0`,
`enginesUsed = some []` and `processingTime = some 0` — the fields are set to
falsy defaults, not left absent as the claim states. -/
theorem chat_response_counterexample :
    ((handleChatResponse chatInitialState {} 2).messages.getLast?.map
        Message.confidence = some (some 0))
    ∧ ((handleChatResponse chatInitialState {} 2).messages.getLast?.map
        Message.enginesUsed = some (some []))
    ∧ ((handleChatResponse chatInitialState {} 2).messages.getLast?.map
        Message.processingTime = some (some 0))
    ∧ ((handleChatResponse chatInitialState {} 2).messages.getLast?.map
        Message.confidence ≠ some none) := by
  refine ⟨rfl, rfl, rfl, by decide⟩

/-- Amended claim C4: every inbound `chat_response` appends exactly one
assistant message; a missing content field defaults to the placeholder text,
and missing confidence, engines-used and processing-time fields are set to
`0`, the empty list and `0` respectively; the handler resolves
`isProcessing` to false and clears `activeEngines`. -/
theorem chat_response_appends_assistant (s : ChatState) (p : ChatResponsePayload)
    (now : Nat) :
    (handleChatResponse s p now).isProcessing = false
    ∧ (handleChatResponse s p now).activeEngines = []
    ∧ (handleChatResponse s p now).messages.dropLast = s.messages
    ∧ (handleChatResponse s p now).messages.length = s.messages.length + 1
    ∧ (handleChatResponse s p now).messages.getLast?.map Message.type
        = some Role.assistant
    ∧ (p.response = none →
        (handleChatResponse s p now).messages.getLast?.map Message.content
          = some "No response received")
    ∧ (p.confidence = none →
        (handleChatResponse s p now).messages.getLast?.map Message.confidence
          = some (some 0))
    ∧ (p.engines_used = none →
        (handleChatResponse s p now).messages.getLast?.map Message.enginesUsed
          = some (some []))
    ∧ (p.processing_time = none →
        (handleChatResponse s p now).messages.getLast?.map Message.processingTime
          = some (some 0)) := by
  refine ⟨?_, ?_, ?_, ?_, ?_, ?_, ?_, ?_, ?_⟩ <;>
    simp [handleChatResponse, addMessage, setProcessing, setActiveEngines,
      List.getLast?_concat] <;>
    intro h <;>
    simp [h, jsOrStr, jsOrNum]

/-- Witness for the amended C4 at a concrete all-missing payload. -/
theorem chat_response_appends_assistant_witness :
    (handleChatResponse chatInitialState ⟨none, none, none, none⟩ 3).isProcessing = false
    ∧ (handleChatResponse chatInitialState ⟨none, none, none, none⟩ 3).messages.getLast?.map
        Message.content = some "No response received" :=
  ⟨(chat_response_appends_assistant chatInitialState ⟨none, none, none, none⟩ 3).1,
   (chat_response_appends_assistant chatInitialState
      ⟨none, none, none, none⟩ 3).2.2.2.2.2.1 rfl⟩

/-- Claim C8 (confirmed): an `engine_activity` event only ever touches the
engines set — the four aggregate fields are unchanged for every payload — and
when the payload carries an engines list the set is replaced by it. -/
theorem engine_activity_frame (s : SystemState)
    (activity : Option EngineActivityPayload) :
    (handleEngineActivity s activity).overallHealth = s.overallHealth
    ∧ (handleEngineActivity s activity).godlikeMode = s.godlikeMode
    ∧ (handleEngineActivity s activity).activeSessions = s.activeSessions
    ∧ (handleEngineActivity s activity).uptime = s.uptime
    ∧ (∀ a l, activity = some a → a.engines = some l →
        (handleEngineActivity s activity).engines = l) := by
  cases activity with
  | none => simp [handleEngineActivity]
  | some a =>
    refine ⟨?_, ?_, ?_, ?_, ?_⟩
    · cases h : a.engines <;> simp [handleEngineActivity, setEngines, h]
    · cases h : a.engines <;> simp [handleEngineActivity, setEngines, h]
    · cases h : a.engines <;> simp [handleEngineActivity, setEngines, h]
    · cases h : a.engines <;> simp [handleEngineActivity, setEngines, h]
    · intro a2 l heq h2
      injection heq with heq
      subst heq
      simp [handleEngineActivity, setEngines, h2]

/-- Witness for C8: a concrete engine-activity payload replaces the engines
set and leaves a concrete aggregate field unchanged. -/
theorem engine_activity_frame_witness :
    (handleEngineActivity systemInitialState
        (some ⟨some [⟨"Reasoning", EngineStatus.active, 80, none⟩]⟩)).engines
      = [⟨"Reasoning", EngineStatus.active, 80, none⟩]
    ∧ (handleEngineActivity systemInitialState
        (some ⟨some [⟨"Reasoning", EngineStatus.active, 80, none⟩]⟩)).uptime
      = systemInitialState.uptime :=
  ⟨(engine_activity_frame systemInitialState
      (some ⟨some [⟨"Reasoning", EngineStatus.active, 80, none⟩]⟩)).2.2.2.2
      ⟨some [⟨"Reasoning", EngineStatus.active, 80, none⟩]⟩
      [⟨"Reasoning", EngineStatus.active, 80, none⟩] rfl rfl,
   (engine_activity_frame systemInitialState
      (some ⟨some [⟨"Reasoning", EngineStatus.active, 80, none⟩]⟩)).2.2.2.1⟩

/-- Claim C9 (confirmed): submitting non-empty text while idle and not
connected appends the optimistic user message followed by exactly one system
message carrying the not-connected notice, ends with `isProcessing = false`
and a cleared draft, leaves `activeEngines` as it was, and emits nothing. -/
theorem submit_disconnected_appends_notice (s : ChatState) (socket : Option Socket)
    (profile : UserProfile) (prefs : Preferences) (now : Nat)
    (hinput : jsTrim s.currentInput ≠ "") (hproc : s.isProcessing = false)
    (hconn : socketConnected socket = false) :
    handleSendMessage s socket profile prefs now =
      ({ messages := s.messages ++
          [{ id := toString now, type := Role.user, content := s.currentInput,
             timestamp := now },
           { id := toString now, type := Role.system,
             content := notConnectedContent, timestamp := now }],
         isProcessing := false,
         activeEngines := s.activeEngines,
         currentInput := "" }, []) := by
  have hc : (jsTrim s.currentInput == "" || s.isProcessing) = false := by
    simp [hinput, hproc]
  simp [handleSendMessage, hc, hconn, addMessage, setProcessing, setCurrentInput]

/-- Witness for C9: the concrete disconnected submit of `"hello"` from the
initial state. -/
theorem submit_disconnected_appends_notice_witness :
    handleSendMessage { chatInitialState with currentInput := "hello" } none
        safeUserProfileDefault safePreferencesDefault 5
      = ({ messages := [welcomeMessage,
             { id := "5", type := Role.user, content := "hello", timestamp := 5 },
             { id := "5", type := Role.system, content := notConnectedContent, timestamp := 5 }],
           isProcessing := false,
           activeEngines := [],
           currentInput := "" }, []) := by
  exact submit_disconnected_appends_notice
    { chatInitialState with currentInput := "hello" } none
    safeUserProfileDefault safePreferencesDefault 5 (by decide) rfl rfl

/-- Claim C10 (confirmed): the `error` handler has no in-flight guard — even
when `isProcessing` is already false it appends one system message built from
the payload, leaves `isProcessing` false, and clears `activeEngines`. -/
theorem error_event_applied_when_idle (s : ChatState) (p : ErrorPayload)
    (now : Nat) ( _hidle : s.isProcessing = false) :
    handleError s p now =
      { messages := s.messages ++
          [{ id := toString now, type := Role.system,
             content := "Error: " ++ jsOrStr p.message "Unknown error occurred",
             timestamp := now }],
        isProcessing := false,
        activeEngines := [],
        currentInput := s.currentInput } := by
  simp [handleError, addMessage, setProcessing, setActiveEngines]

/-- Witness for C10: a concrete unsolicited error event on the idle initial
state is fully applied. -/
theorem error_event_applied_when_idle_witness :
    handleError chatInitialState ⟨none⟩ 4 =
      { messages := [welcomeMessage,
          { id := "4", type := Role.system, content := "Error: " ++ jsOrStr none "Unknown error occurred", timestamp := 4 }],
        isProcessing := false,
        activeEngines := [],
        currentInput := "" } := by
  exact error_event_applied_when_idle chatInitialState ⟨none⟩ 4 rfl

end Jarvis
